import Mathlib

/-!
A shallow embedding of the in-memory recipe/ingredient lookup layer of
`src/node-graphql/data.js`, together with theorems settling the frozen
claims about it.

JavaScript values passed as lookup keys are modelled by `JSValue`
(strings, integer numbers, booleans, `null`, `undefined`); JS strict
equality `===` between such values is structural equality, and the JS
`String(v)` coercion is `jsToString`.  JS `String.prototype.toLowerCase`
is modelled by `String.toLower` (locale-naive, per the spec), and
`String.prototype.includes` by an explicit substring check on the
character lists.  The module-level arrays `recipes` and `ingredients`
become Lean lists; `Array.prototype.find` becomes `List.find?` (absent
`undefined` becomes `none`), `Array.prototype.filter` becomes
`List.filter`, and `Array.prototype.includes` becomes `List.contains`
with the structural `BEq` (SameValueZero on the modelled values).
-/

/-- A JavaScript value usable as a lookup key: string, (integer) number,
boolean, `null` or `undefined`. -/
inductive JSValue where
  | str (s : String)
  | num (n : Int)
  | jsBool (b : Bool)
  | null
  | undefined
deriving DecidableEq

/-- The JS `String(v)` coercion on the modelled values. -/
def jsToString : JSValue → String
  | .str s => s
  | .num n => toString n
  | .jsBool true => "true"
  | .jsBool false => "false"
  | .null => "null"
  | .undefined => "undefined"

/-- `beginsWith pat l` : the character list `pat` starts the list `l`. -/
def beginsWith : List Char → List Char → Bool
  | [], _ => true
  | _ :: _, [] => false
  | a :: as, b :: bs => a == b && beginsWith as bs

/-- `containsSub pat l` : `pat` occurs as a contiguous sublist of `l`. -/
def containsSub : List Char → List Char → Bool
  | pat, [] => pat.isEmpty
  | pat, b :: bs => beginsWith pat (b :: bs) || containsSub pat bs

/-- JS `s.includes(pat)` : `pat` is a substring of `s`. -/
def jsIncludes (s pat : String) : Bool :=
  containsSub pat.data s.data

/-- Lowercase one character (locale-naive, as the spec describes the
comparison). -/
def toLowerChar (c : Char) : Char :=
  if 'A' ≤ c ∧ c ≤ 'Z' then Char.ofNat (c.toNat + 32) else c

/-- JS `s.toLowerCase()` (locale-naive). -/
def jsToLower (s : String) : String :=
  ⟨s.data.map toLowerChar⟩

/-- A record of the `recipes` array in `data.js`.  `steps: null` is
modelled by `none`. -/
structure Recipe where
  id : String
  name : String
  steps : Option String
  cookTime : Nat
  difficulty : String
  ingredientIds : List String
deriving DecidableEq

/-- A record of the `ingredients` array in `data.js`. -/
structure Ingredient where
  id : String
  name : String
  quantity : String
deriving DecidableEq

def recipe1 : Recipe :=
  { id := "1", name := "Chicken Tikka Masala",
    steps := some "1. Marinate chicken in yogurt and spices\n2. Grill chicken until charred\n3. Make tomato-cream sauce\n4. Combine and simmer",
    cookTime := 45, difficulty := "medium",
    ingredientIds := ["1", "2", "3", "4"] }

def recipe2 : Recipe :=
  { id := "2", name := "Spaghetti Carbonara",
    steps := some "1. Cook spaghetti\n2. Fry pancetta\n3. Mix eggs and cheese\n4. Combine while hot",
    cookTime := 20, difficulty := "easy",
    ingredientIds := ["5", "6", "7", "8"] }

def recipe3 : Recipe :=
  { id := "3", name := "Beef Tacos",
    steps := some "1. Season and cook ground beef\n2. Warm tortillas\n3. Assemble with toppings",
    cookTime := 15, difficulty := "easy",
    ingredientIds := ["9", "10", "11", "12"] }

def recipe4 : Recipe :=
  { id := "4", name := "Vegetable Stir Fry",
    steps := none,
    cookTime := 15, difficulty := "easy",
    ingredientIds := ["13", "14", "15", "16"] }

/-- The `recipes` seed array of `data.js`. -/
def recipes : List Recipe :=
  [recipe1, recipe2, recipe3, recipe4]

def ingredient1 : Ingredient := { id := "1", name := "Chicken", quantity := "1 lb" }
def ingredient2 : Ingredient := { id := "2", name := "Yogurt", quantity := "1 cup" }
def ingredient3 : Ingredient := { id := "3", name := "Tomato Sauce", quantity := "2 cups" }
def ingredient4 : Ingredient := { id := "4", name := "Cream", quantity := "1/2 cup" }
def ingredient5 : Ingredient := { id := "5", name := "Spaghetti", quantity := "1 lb" }
def ingredient6 : Ingredient := { id := "6", name := "Pancetta", quantity := "200g" }
def ingredient7 : Ingredient := { id := "7", name := "Eggs", quantity := "4" }
def ingredient8 : Ingredient := { id := "8", name := "Parmesan Cheese", quantity := "1 cup" }
def ingredient9 : Ingredient := { id := "9", name := "Ground Beef", quantity := "1 lb" }
def ingredient10 : Ingredient := { id := "10", name := "Tortillas", quantity := "8" }
def ingredient11 : Ingredient := { id := "11", name := "Lettuce", quantity := "1 head" }
def ingredient12 : Ingredient := { id := "12", name := "Salsa", quantity := "to taste" }
def ingredient13 : Ingredient := { id := "13", name := "Broccoli", quantity := "2 cups" }
def ingredient14 : Ingredient := { id := "14", name := "Bell Peppers", quantity := "2" }
def ingredient15 : Ingredient := { id := "15", name := "Soy Sauce", quantity := "3 tbsp" }
def ingredient16 : Ingredient := { id := "16", name := "Garlic", quantity := "4 cloves" }

/-- The `ingredients` seed array of `data.js`. -/
def ingredients : List Ingredient :=
  [ingredient1, ingredient2, ingredient3, ingredient4,
   ingredient5, ingredient6, ingredient7, ingredient8,
   ingredient9, ingredient10, ingredient11, ingredient12,
   ingredient13, ingredient14, ingredient15, ingredient16]

/-- `getRecipeById(id)` of `data.js`:
`recipes.find(recipe => recipe.id === String(id))`. -/
def getRecipeById (id : JSValue) : Option Recipe :=
  recipes.find? (fun recipe => recipe.id == jsToString id)

/-- `getAllRecipes()` of `data.js`: `return recipes;`. -/
def getAllRecipes : List Recipe :=
  recipes

/-- `searchRecipes(query)` of `data.js`:
`recipes.filter(recipe => recipe.name.toLowerCase().includes(query.toLowerCase()))`. -/
def searchRecipes (query : String) : List Recipe :=
  recipes.filter (fun recipe => jsIncludes (jsToLower recipe.name) (jsToLower query))

/-- `getIngredientsByIds(ingredientIds)` of `data.js`:
`ingredients.filter(ingredient => ingredientIds.includes(ingredient.id))`.
Note: `Array.prototype.includes` compares with SameValueZero, i.e. with
NO string coercion of the elements of `ingredientIds`. -/
def getIngredientsByIds (ingredientIds : List JSValue) : List Ingredient :=
  ingredients.filter (fun ingredient => ingredientIds.contains (JSValue.str ingredient.id))

/-- `getIngredientById(id)` of `data.js`:
`ingredients.find(ingredient => ingredient.id === String(id))`. -/
def getIngredientById (id : JSValue) : Option Ingredient :=
  ingredients.find? (fun ingredient => ingredient.id == jsToString id)

/-- One call into the query surface (the four operations named by the
spec's idempotence property). -/
inductive OpCall where
  | recipeById (v : JSValue)
  | allRecipes
  | search (q : String)
  | ingredientsByIds (ids : List JSValue)

/-- The value returned by one call. -/
inductive OpResult where
  | recipeOpt (r : Option Recipe)
  | recipeList (l : List Recipe)
  | ingredientList (l : List Ingredient)
deriving DecidableEq

/-- The module-level state of `data.js`: the two arrays the functions
close over. -/
structure DataState where
  recipesArr : List Recipe
  ingredientsArr : List Ingredient
deriving DecidableEq

/-- The state after the module initializer runs: the two seed arrays. -/
def seedState : DataState :=
  ⟨recipes, ingredients⟩

/-- State-passing embedding of the operations: each call reads the
module arrays and returns its result together with the module state it
leaves behind (the function bodies contain no assignment, so the state
is passed through unchanged). -/
def runOp : OpCall → DataState → OpResult × DataState
  | .recipeById v, s =>
      (.recipeOpt (s.recipesArr.find? (fun recipe => recipe.id == jsToString v)), s)
  | .allRecipes, s => (.recipeList s.recipesArr, s)
  | .search q, s =>
      (.recipeList (s.recipesArr.filter
        (fun recipe => jsIncludes (jsToLower recipe.name) (jsToLower q))), s)
  | .ingredientsByIds ids, s =>
      (.ingredientList (s.ingredientsArr.filter
        (fun ingredient => ids.contains (JSValue.str ingredient.id))), s)

/-- A reference to a recipe array object on the JS heap.  The only
recipe array the module ever allocates is the store itself. -/
inductive ArrayRef where
  | recipesRef
deriving DecidableEq

/-- The JS heap cells relevant to the module: the recipe array object
and the ingredient array object. -/
structure JsHeap where
  recipesArr : List Recipe
  ingredientsArr : List Ingredient
deriving DecidableEq

/-- The heap after the module initializer runs. -/
def seedJsHeap : JsHeap :=
  ⟨recipes, ingredients⟩

/-- Reference-aware embedding of `getAllRecipes()`: the source's
`return recipes;` returns the module-level array object itself, so the
caller receives a reference to the store's array and the heap is left
unchanged. -/
def getAllRecipesRef : JsHeap → ArrayRef × JsHeap :=
  fun h => (ArrayRef.recipesRef, h)

/-- Reading the array an `ArrayRef` points to. -/
def derefRecipes : ArrayRef → JsHeap → List Recipe
  | .recipesRef, h => h.recipesArr

/-- A caller mutating, in place, the array a reference points to
(e.g. `arr.push(...)`, `arr.length = 0`). -/
def mutateThrough : ArrayRef → (List Recipe → List Recipe) → JsHeap → JsHeap
  | .recipesRef, f, h => { h with recipesArr := f h.recipesArr }

/-- C5: `getAllRecipes()` returns every recipe record of the store in
store (seed) order: a sequence of exactly 4 records, in which the fourth
record's `steps` field is absent/null. -/
theorem C5_get_all_recipes :
    getAllRecipes = recipes ∧
    getAllRecipes.length = 4 ∧
    getAllRecipes[3]? = some recipe4 ∧
    recipe4.steps = none :=
  ⟨rfl, rfl, rfl, rfl⟩

/-- C6: on the seed data, `getRecipeById("1")` is the record named
"Chicken Tikka Masala" with `cookTime` 45, `getRecipeById("999")` is
not-found, and `searchRecipes("tikka")` contains exactly the recipe with
id "1". -/
theorem C6_concrete_scenarios :
    getRecipeById (JSValue.str "1") = some recipe1 ∧
    recipe1.name = "Chicken Tikka Masala" ∧
    recipe1.cookTime = 45 ∧
    getRecipeById (JSValue.str "999") = none ∧
    searchRecipes "tikka" = [recipe1] ∧
    recipe1.id = "1" :=
  ⟨by decide, rfl, rfl, by decide, by decide, rfl⟩

/-- C7: each of the four operations is a pure, deterministic function of
its input and the module state: a call leaves the state unchanged, and a
second call with the same argument returns the same result; at the seed
state each call's result is exactly the corresponding pure function's
value. -/
theorem C7_operations_idempotent :
    (∀ (c : OpCall) (s : DataState),
        (runOp c s).2 = s ∧ (runOp c ((runOp c s).2)).1 = (runOp c s).1) ∧
    (∀ v, (runOp (OpCall.recipeById v) seedState).1 = OpResult.recipeOpt (getRecipeById v)) ∧
    ((runOp OpCall.allRecipes seedState).1 = OpResult.recipeList getAllRecipes) ∧
    (∀ q, (runOp (OpCall.search q) seedState).1 = OpResult.recipeList (searchRecipes q)) ∧
    (∀ ids, (runOp (OpCall.ingredientsByIds ids) seedState).1 =
        OpResult.ingredientList (getIngredientsByIds ids)) := by
  refine ⟨?_, fun v => rfl, rfl, fun q => rfl, fun ids => rfl⟩
  intro c s
  cases c <;> exact ⟨rfl, rfl⟩

/-- C10: for every input id sequence (duplicates included), the output of
`getIngredientsByIds` is a duplicate-free subsequence of the store, so
its length never exceeds the store size. -/
theorem C10_output_is_dedup_subsequence :
    ∀ ids : List JSValue,
      (getIngredientsByIds ids).Sublist ingredients ∧
      (getIngredientsByIds ids).Nodup ∧
      (getIngredientsByIds ids).length ≤ ingredients.length := by
  intro ids
  have hsub : (getIngredientsByIds ids).Sublist ingredients := List.filter_sublist _
  have hnd : ingredients.Nodup := by decide
  exact ⟨hsub, List.Nodup.sublist hsub hnd, hsub.length_le⟩

/-- C4 counterexample: `getIngredientsByIds` does NOT coerce the elements
of its input to strings — on the input `[1]` (a number) it returns the
empty sequence, while on `[String(1)] = ["1"]` it returns the Chicken
record, so the two calls differ. -/
theorem C4_counterexample_no_batch_coercion :
    getIngredientsByIds [JSValue.num 1] ≠
      getIngredientsByIds ([JSValue.num 1].map (fun v => JSValue.str (jsToString v))) := by
  decide

/-- C4 (amended): the point lookups `getRecipeById` and
`getIngredientById` coerce the caller's id to its canonical string form
before comparison, but `getIngredientsByIds` compares the input elements
by strict equality with no coercion: a store record is returned iff the
exact string value of its id appears in the input sequence. -/
theorem C4_point_lookups_coerce :
    (∀ v : JSValue, getRecipeById v = getRecipeById (JSValue.str (jsToString v))) ∧
    (∀ v : JSValue, getIngredientById v = getIngredientById (JSValue.str (jsToString v))) ∧
    (∀ (ids : List JSValue) (i : Ingredient),
        i ∈ getIngredientsByIds ids ↔ i ∈ ingredients ∧ JSValue.str i.id ∈ ids) := by
  refine ⟨fun v => rfl, fun v => rfl, ?_⟩
  intro ids i
  rw [getIngredientsByIds, List.mem_filter]
  simp [List.contains_iff_exists_mem_beq]

/-- C9 counterexample: `getAllRecipes()` returns the store's array object
itself, not an independent view — after a caller erases the returned
array in place, a later `getAllRecipes()` call no longer observes the
seed records. -/
theorem C9_counterexample_view_is_aliased :
    derefRecipes
        (getAllRecipesRef
          (mutateThrough (getAllRecipesRef seedJsHeap).1 (fun _ => [])
            (getAllRecipesRef seedJsHeap).2)).1
        (mutateThrough (getAllRecipesRef seedJsHeap).1 (fun _ => [])
          (getAllRecipesRef seedJsHeap).2) ≠ recipes := by
  decide

/-- C9 (amended): no operation of the core ever mutates the stores, but
`getAllRecipes` hands the caller a reference to the store's own array
(no independent view): mutating through the returned reference is
mutating the store that every later call observes. -/
theorem C9_store_immutable_but_aliased :
    (∀ (c : OpCall) (s : DataState), (runOp c s).2 = s) ∧
    ((getAllRecipesRef seedJsHeap).1 = ArrayRef.recipesRef ∧
      (getAllRecipesRef seedJsHeap).2 = seedJsHeap) ∧
    (∀ (h : JsHeap) (f : List Recipe → List Recipe),
        derefRecipes (getAllRecipesRef h).1 (mutateThrough (getAllRecipesRef h).1 f h) =
          f h.recipesArr) := by
  refine ⟨?_, ⟨rfl, rfl⟩, fun h f => rfl⟩
  intro c s
  cases c <;> rfl

/-- C1: for every id present in a store the point lookup returns the
unique record with that id, and for every absent id it returns the
not-found signal (`none`); ids are unique in each store. -/
theorem C1_point_lookup_correct :
    (∀ r, r ∈ recipes → getRecipeById (JSValue.str r.id) = some r) ∧
    (∀ s : String, (∀ r, r ∈ recipes → r.id ≠ s) → getRecipeById (JSValue.str s) = none) ∧
    (∀ r ∈ recipes, ∀ r' ∈ recipes, r.id = r'.id → r = r') ∧
    (∀ i, i ∈ ingredients → getIngredientById (JSValue.str i.id) = some i) ∧
    (∀ s : String, (∀ i, i ∈ ingredients → i.id ≠ s) → getIngredientById (JSValue.str s) = none) ∧
    (∀ i ∈ ingredients, ∀ i' ∈ ingredients, i.id = i'.id → i = i') := by
  refine ⟨?_, ?_, by decide, ?_, ?_, by decide⟩
  · intro r hr
    simp only [recipes, List.mem_cons, List.not_mem_nil, or_false] at hr
    rcases hr with rfl | rfl | rfl | rfl <;> decide
  · intro s hs
    rw [getRecipeById]
    refine List.find?_eq_none.mpr ?_
    intro r hr
    simpa [jsToString] using hs r hr
  · intro i hi
    simp only [ingredients, List.mem_cons, List.not_mem_nil, or_false] at hi
    rcases hi with rfl | rfl | rfl | rfl | rfl | rfl | rfl | rfl |
      rfl | rfl | rfl | rfl | rfl | rfl | rfl | rfl <;> decide
  · intro s hs
    rw [getIngredientById]
    refine List.find?_eq_none.mpr ?_
    intro i hi
    simpa [jsToString] using hs i hi

/-- C1 witness: the lookup theorem applied at concrete present and
absent ids of both stores. -/
theorem C1_point_lookup_correct_witness :
    getRecipeById (JSValue.str "2") = some recipe2 ∧
    getRecipeById (JSValue.str "999") = none ∧
    recipe1 = recipe1 ∧
    getIngredientById (JSValue.str "7") = some ingredient7 ∧
    getIngredientById (JSValue.str "0") = none ∧
    ingredient1 = ingredient1 :=
  ⟨C1_point_lookup_correct.1 recipe2 (by decide),
   C1_point_lookup_correct.2.1 "999" (by decide),
   C1_point_lookup_correct.2.2.1 recipe1 (by decide) recipe1 (by decide) rfl,
   C1_point_lookup_correct.2.2.2.1 ingredient7 (by decide),
   C1_point_lookup_correct.2.2.2.2.1 "0" (by decide),
   C1_point_lookup_correct.2.2.2.2.2 ingredient1 (by decide) ingredient1 (by decide) rfl⟩

/-- C2: a recipe is in `searchRecipes(query)` iff the lowercase form of
its name contains the lowercase form of `query` as a substring; the
empty query returns every recipe, "CHICKEN" and "chicken" give identical
results, and the result preserves store order. -/
theorem C2_search_by_substring :
    (∀ (q : String) (r : Recipe),
        r ∈ searchRecipes q ↔
          r ∈ recipes ∧ jsIncludes (jsToLower r.name) (jsToLower q) = true) ∧
    searchRecipes "" = recipes ∧
    searchRecipes "CHICKEN" = searchRecipes "chicken" ∧
    (∀ q : String, (searchRecipes q).Sublist recipes) := by
  refine ⟨?_, by decide, by decide, ?_⟩
  · intro q r
    rw [searchRecipes, List.mem_filter]
  · intro q
    exact List.filter_sublist recipes

/-- C8: not-found on the point lookups is signaled by the explicit
absent value `none` returned to the caller — the result is always either
a record of the store or `none`, and it is `none` exactly when no store
record's id equals the coerced input. -/
theorem C8_not_found_is_a_value :
    (∀ v : JSValue, getRecipeById v = none ↔ ∀ r, r ∈ recipes → r.id ≠ jsToString v) ∧
    (∀ v : JSValue, getIngredientById v = none ↔ ∀ i, i ∈ ingredients → i.id ≠ jsToString v) ∧
    (∀ v : JSValue, getRecipeById v = none ∨
        ∃ r, r ∈ recipes ∧ getRecipeById v = some r) ∧
    (∀ v : JSValue, getIngredientById v = none ∨
        ∃ i, i ∈ ingredients ∧ getIngredientById v = some i) := by
  refine ⟨?_, ?_, ?_, ?_⟩
  · intro v
    rw [getRecipeById, List.find?_eq_none]
    simp
  · intro v
    rw [getIngredientById, List.find?_eq_none]
    simp
  · intro v
    cases h : getRecipeById v with
    | none => exact Or.inl rfl
    | some r => exact Or.inr ⟨r, List.mem_of_find?_eq_some h, rfl⟩
  · intro v
    cases h : getIngredientById v with
    | none => exact Or.inl rfl
    | some i => exact Or.inr ⟨i, List.mem_of_find?_eq_some h, rfl⟩

/-- C3: `getIngredientsByIds(ids)` returns exactly the store records
whose id appears in `ids`, in store order (a subsequence of the store);
unknown ids are silently ignored, the empty input yields the empty
output, and the output length is at most the number of distinct known
ids in `ids`. -/
theorem C3_batch_lookup_correct :
    getIngredientsByIds [] = [] ∧
    getIngredientsByIds [JSValue.str "1", JSValue.str "999"] = [ingredient1] ∧
    (∀ ids : List String,
      (∀ i : Ingredient,
          i ∈ getIngredientsByIds (ids.map JSValue.str) ↔ i ∈ ingredients ∧ i.id ∈ ids) ∧
      (getIngredientsByIds (ids.map JSValue.str)).Sublist ingredients ∧
      (getIngredientsByIds (ids.map JSValue.str)).length ≤
        (ids.dedup.filter (fun s => ingredients.any (fun i => i.id == s))).length) := by
  refine ⟨by decide, by decide, ?_⟩
  intro ids
  have hiff : ∀ i : Ingredient,
      i ∈ getIngredientsByIds (ids.map JSValue.str) ↔ i ∈ ingredients ∧ i.id ∈ ids := by
    intro i
    rw [getIngredientsByIds, List.mem_filter]
    simp [List.contains_iff_exists_mem_beq]
  refine ⟨hiff, List.filter_sublist _, ?_⟩
  have hndall : (ingredients.map Ingredient.id).Nodup := by decide
  have hnd : ((getIngredientsByIds (ids.map JSValue.str)).map Ingredient.id).Nodup :=
    List.Nodup.sublist (List.Sublist.map Ingredient.id (List.filter_sublist _)) hndall
  have hss : ((getIngredientsByIds (ids.map JSValue.str)).map Ingredient.id) ⊆
      ids.dedup.filter (fun s => ingredients.any (fun i => i.id == s)) := by
    intro x hx
    rcases List.mem_map.mp hx with ⟨i, hi, rfl⟩
    rcases (hiff i).mp hi with ⟨hmem, hid⟩
    refine List.mem_filter.mpr ⟨List.mem_dedup.mpr hid, ?_⟩
    exact List.any_eq_true.mpr ⟨i, hmem, by simp⟩
  have hle := (List.Nodup.subperm hnd hss).length_le
  simpa using hle
